import Mathlib

/-!
Shallow embedding of SumpAlarm.cpp (the sump-pump float-switch monitor).

Conventions used throughout:
* C `int` and `time_t` values are modelled as `Int`; C integer division and
  modulus truncate toward zero, modelled by `Int.tdiv` / `Int.tmod`.
* C `double` arithmetic is modelled as exact rational arithmetic (`ℚ`); the
  literal `3.14159265` from the source becomes the rational `piLit`.  The
  final `double`-to-`int` conversion truncates toward zero, modelled by
  `cTrunc`.
* `char *` action strings are `Option String` (`none` = `NULL`).
* The fixed `FloatSwitch switchlist[100]` array is a `List FloatSwitch`
  indexed with `List.getD`/`List.set`; out-of-range indices behave like the
  uninitialized sentinel entry, which every loop skips.
* Side effects are made explicit: `Action(...)` call sites are recorded as
  `ActionCall` values (an absent template dispatches nothing, mirroring
  `Action`'s early return on `NULL`), `setenv` calls are returned as a list of
  name/value pairs, and the raw GPIO levels are an input `Nat → Bool`.
-/

namespace SumpAlarm

/-- FREQ_HISTORY from the source: size of the per-switch interval ring. -/
def FREQ_HISTORY : Nat := 4

/-- BOUNCEDELAY from the source: default debounce window in seconds. -/
def BOUNCEDELAY : Int := 5

/-- C truncation of an exact rational toward zero, as in a `double`-to-`int`
assignment.  Since `q.den` is positive, `q.num.tdiv q.den` is exactly the
integer part of `q` truncated toward zero. -/
def cTrunc (q : ℚ) : Int := Int.tdiv q.num (q.den : Int)

/-- The literal `3.14159265` used by the source for π. -/
def piLit : ℚ := 314159265 / 100000000

/-- struct FloatSwitch from the source.  `freq0`–`freq3` are the four slots of
`int freq[FREQ_HISTORY]` (slot 0 oldest, slot 3 newest). -/
structure FloatSwitch where
  initialized : Bool
  level : Int
  pin : Int
  OnAction : Option String
  OffAction : Option String
  freq0 : Int
  freq1 : Int
  freq2 : Int
  freq3 : Int
  lastfreq : Int
  state : Bool
  LastOn : Int
  LastOff : Int
  bouncedelay : Int
deriving DecidableEq

/-- The sentinel value every slot of `switchlist` is set to by `main`'s
initialization loop (uninitialized, everything zero, default bounce delay). -/
instance : Inhabited FloatSwitch :=
  ⟨{ initialized := false, level := 0, pin := 0, OnAction := none,
     OffAction := none, freq0 := 0, freq1 := 0, freq2 := 0, freq3 := 0,
     lastfreq := 0, state := false, LastOn := 0, LastOff := 0,
     bouncedelay := BOUNCEDELAY }⟩

/-- struct ConfigData from the source. -/
structure ConfigData where
  sumpdepth : Int
  sumpdiameter : Int
  lowwater : Int
  highwater : Int
  capacity : Int
  vol : Int
  rate : Int
  freq : Int
  ratechangeamt : Int
  ratechange : Option String
  switchlist : List FloatSwitch
  overduethreshold : Int
  overdue : Option String
deriving DecidableEq

/-- The four ring slots of a switch as a list (used to state properties of
the interval history). -/
def histList (s : FloatSwitch) : List Int := [s.freq0, s.freq1, s.freq2, s.freq3]

/-- GetFrequency from the source: sum all `FREQ_HISTORY` slots, count the
zero ("empty") slots, and divide the sum by the number of nonzero slots
unless every slot is zero (in which case the zero sum is returned as is). -/
def GetFrequency (s : FloatSwitch) : Int :=
  let f := s.freq0 + s.freq1 + s.freq2 + s.freq3
  let z := ((histList s).filter (fun x => decide (x = 0))).length
  if z ≠ FREQ_HISTORY then Int.tdiv f ((FREQ_HISTORY - z : Nat) : Int) else f

/-- The volume computation from SetEnvironment:
`cd.vol = ((s.level/10.0)*(3.14159265*(cd.sumpdiameter/20.0)*(cd.sumpdiameter/20.0)))/1000.0`
truncated to `int`. -/
def computeVol (s : FloatSwitch) (cd : ConfigData) : Int :=
  cTrunc ((((s.level : ℚ) / 10) *
    (piLit * ((cd.sumpdiameter : ℚ) / 20) * ((cd.sumpdiameter : ℚ) / 20))) / 1000)

/-- The rate computation from SetEnvironment: if `cd.freq != 0` then
`cd.rate = (((cd.highwater-cd.lowwater)/10.0*(3.14159265*(d/20.0)*(d/20.0)))/1000.0)*3600/cd.freq`
truncated to `int`, else `0`. -/
def computeRate (cd : ConfigData) : Int :=
  if cd.freq ≠ 0 then
    cTrunc (((((cd.highwater : ℚ) - (cd.lowwater : ℚ)) / 10 *
      (piLit * ((cd.sumpdiameter : ℚ) / 20) * ((cd.sumpdiameter : ℚ) / 20))) / 1000) *
      3600 / (cd.freq : ℚ))
  else 0

/-- The time-left computation from SetEnvironment (pure `int` arithmetic in
the source): `if (cd.rate==0) timeleft=0; else timeleft=(cd.capacity-cd.vol)*3600/cd.rate;`. -/
def timeleftOf (capacity vol rate : Int) : Int :=
  if rate = 0 then 0 else Int.tdiv ((capacity - vol) * 3600) rate

/-- The cross-sectional area factor the source's volume and rate expressions
share: `3.14159265*(d/20.0)*(d/20.0)` combined with the source's `/10.0` and
`/1000.0` millimetre-to-litre unit conversions (litres per millimetre of
depth). -/
def crossSectionalArea (d : ℚ) : ℚ := piLit * (d / 20) * (d / 20) / 10000

/-- SetEnvironment from the source, as the ordered list of environment
name/value pairs it publishes via `setenv`.  Note that `cd` is passed to the
C function *by value*, so its writes to `cd.vol`/`cd.rate` never reach the
caller; the function's only observable effect is this environment. -/
def SetEnvironment (s : FloatSwitch) (cd : ConfigData) : List (String × String) :=
  let vol := computeVol s cd
  let rate := computeRate cd
  let timeleft := timeleftOf cd.capacity vol rate
  [("SAFREQ", toString cd.freq),
   ("SAFREQF", toString (Int.tdiv cd.freq 60) ++ "m " ++ toString (Int.tmod cd.freq 60) ++ "s"),
   ("SAVOLUME", toString vol),
   ("SARATE", toString rate),
   ("SATIMELEFT", toString timeleft),
   ("SATIMELEFTM", toString (Int.tdiv timeleft 60))]

/-- One already-tokenized configuration directive.  The source's hand-rolled
fixed-offset line parsing is out of scope (the spec treats the config loader
as an external collaborator delivering structured values); each constructor
corresponds to one recognized `Key=Value` line of RefreshConfig's parse loop.
`logDirective` stands for the `LogFile`/`LogLevel` lines, which only touch
logging globals outside `ConfigData`. -/
inductive ConfigLine
  | logDirective
  | sumpDepthL (n : Int)
  | sumpDiameterL (n : Int)
  | lowWaterL (n : Int)
  | highWaterL (n : Int)
  | rateChangeAmtL (n : Int)
  | overdueThresholdL (n : Int)
  | rateChangeL (s : String)
  | overdueL (s : String)
  | switchLevelL (id : Nat) (n : Int)
  | switchPinL (id : Nat) (n : Int)
  | switchBounceL (id : Nat) (n : Int)
  | switchOnL (id : Nat) (s : String)
  | switchOffL (id : Nat) (s : String)
deriving DecidableEq

/-- Update slot `id` of the switch list in place, as the source's
`cd.switchlist[ID].field = v` assignments do. -/
def updSwitch (cd : ConfigData) (id : Nat) (f : FloatSwitch → FloatSwitch) : ConfigData :=
  { cd with switchlist := cd.switchlist.set id (f (cd.switchlist.getD id default)) }

/-- The body of RefreshConfig's parse loop for one directive.  `none` models
`exit(1)` (only reachable for a zero pin on the initial load).  Geometry and
pin lines are skipped when `initial` is false (`if (!initial) continue;`),
and empty action strings are skipped (`if (strlen(...)<=0) continue;`); the
source's "same string" comparison branches leave the same net state as a
plain overwrite, which is what is modelled. -/
def applyLine (initial : Bool) (cd : ConfigData) : ConfigLine → Option ConfigData
  | .logDirective => some cd
  | .sumpDepthL n => if initial then some { cd with sumpdepth := n } else some cd
  | .sumpDiameterL n => if initial then some { cd with sumpdiameter := n } else some cd
  | .lowWaterL n => if initial then some { cd with lowwater := n } else some cd
  | .highWaterL n => if initial then some { cd with highwater := n } else some cd
  | .rateChangeAmtL n => some { cd with ratechangeamt := n }
  | .overdueThresholdL n => some { cd with overduethreshold := n }
  | .rateChangeL s => if s = "" then some cd else some { cd with ratechange := some s }
  | .overdueL s => if s = "" then some cd else some { cd with overdue := some s }
  | .switchLevelL id n => some (updSwitch cd id (fun sw => { sw with level := n }))
  | .switchPinL id n =>
      if initial then
        if n ≠ 0 then
          some (updSwitch cd id (fun sw => { sw with pin := n, initialized := true }))
        else none
      else some cd
  | .switchBounceL id n => some (updSwitch cd id (fun sw => { sw with bouncedelay := n }))
  | .switchOnL id s =>
      if s = "" then some cd
      else some (updSwitch cd id (fun sw => { sw with OnAction := some s }))
  | .switchOffL id s =>
      if s = "" then some cd
      else some (updSwitch cd id (fun sw => { sw with OffAction := some s }))

/-- RefreshConfig's parse loop over all directives of the config file. -/
def applyLines (initial : Bool) (cd : ConfigData) : List ConfigLine → Option ConfigData
  | [] => some cd
  | l :: ls =>
      match applyLine initial cd l with
      | some cd1 => applyLines initial cd1 ls
      | none => none

/-- The capacity recomputation at the end of RefreshConfig:
`cd.capacity=(3.14159265*(d/20.0)*(d/20.0)*(depth/10.0))/1000.0;`. -/
def setCapacity (cd : ConfigData) : ConfigData :=
  { cd with capacity := cTrunc ((piLit * ((cd.sumpdiameter : ℚ) / 20) *
      ((cd.sumpdiameter : ℚ) / 20) * ((cd.sumpdepth : ℚ) / 10)) / 1000) }

/-- RefreshConfig from the source.  External inputs are made explicit:
`fp` is the fingerprint read back from `./configsum` (`none` = the checksum
file could not be opened) and `content` is the parsed config file (`none` =
`fopen(CONFIGFILE)` returned `NULL`).  The result pairs the updated
`ConfigData` with the updated `static char hash[]`; `none` models process
exit (`exit(1)`, reachable only on the initial load).

Faithful to the source's order of operations on a non-initial reload: the
new fingerprint is copied into `hash` *before* the config file is opened, so
a failed open keeps the data but still records the fingerprint. -/
def RefreshConfig (initial : Bool) (cd : ConfigData) (hash : String)
    (fp : Option String) (content : Option (List ConfigLine)) :
    Option (ConfigData × String) :=
  if initial = false then
    match fp with
    | none => some (cd, hash)
    | some f =>
        if hash = f then some (cd, hash)
        else
          match content with
          | none => some (cd, f)
          | some lines => (applyLines false cd lines).map (fun cd1 => (setCapacity cd1, f))
  else
    match fp with
    | none => some (cd, hash)
    | some f =>
        match content with
        | none => none
        | some lines => (applyLines true cd lines).map (fun cd1 => (setCapacity cd1, f))

/-- The kind of validated transition the loop body detected for a switch. -/
inductive Transition
  | NoTransition
  | ToOn
  | ToOff
deriving DecidableEq

/-- Which `Action(...)` call site of `main` fired. -/
inductive ActionSite
  | onSite (id : Nat)
  | offSite (id : Nat)
  | rateSite
  | overdueSite
deriving DecidableEq

/-- One `Action(...)` invocation: the call site and the template handed to
`Action` (which is a no-op when the template is `none`/`NULL`). -/
structure ActionCall where
  site : ActionSite
  template : Option String
deriving DecidableEq

/-- The command strings actually dispatched by a list of `Action` calls:
`Action` returns immediately on a `NULL` template, so absent templates
dispatch nothing. -/
def dispatched (calls : List ActionCall) : List String :=
  calls.filterMap (fun c => c.template)

/-- Accumulated effects of the per-tick switch scan: the mutable state
(`cd`, the `overduenotice` flag) plus instrumentation recording the `Action`
call sites, the validated transitions, every divisor used by the rate-change
ratio `(double)lastfreq/(double)cd.freq`, and each published environment. -/
structure ScanAcc where
  cd : ConfigData
  overduenotice : Bool
  calls : List ActionCall
  trans : List (Nat × Transition)
  divisors : List Int
  envs : List (List (String × String))

/-- An empty effect delta leaving the state as given. -/
def noChange (cd : ConfigData) (notified : Bool) : ScanAcc :=
  ⟨cd, notified, [], [], [], []⟩

/-- The accepted-ToOn update of a switch record (source lines 408–417):
store state On, shift the interval ring left, overwrite the newest slot with
`t - LastOn` only when `LastOn` was nonzero, and stamp `LastOn`. -/
def toOnSwitch (t : Int) (sw : FloatSwitch) : FloatSwitch :=
  { sw with state := true,
            freq0 := sw.freq1, freq1 := sw.freq2, freq2 := sw.freq3,
            freq3 := if sw.LastOn ≠ 0 then t - sw.LastOn else sw.freq3,
            LastOn := t }

/-- The accepted-ToOff update of a switch record (source lines 459–460):
store state Off and stamp `LastOff`. -/
def toOffSwitch (t : Int) (sw : FloatSwitch) : FloatSwitch :=
  { sw with state := false, LastOff := t }

/-- Store an updated switch record back into slot `ID`. -/
def setSwitch (cd : ConfigData) (ID : Nat) (sw : FloatSwitch) : ConfigData :=
  { cd with switchlist := cd.switchlist.set ID sw }

/-- `cd.freq=GetFrequency(cd.switchlist[0]);` (source line 419). -/
def setFreq (cd : ConfigData) : ConfigData :=
  { cd with freq := GetFrequency (cd.switchlist.getD 0 default) }

/-- `cd.switchlist[ID].lastfreq=cd.freq;` — record the current frequency
estimate as the new rate-change baseline of slot `ID`. -/
def setLastfreq (cd : ConfigData) (ID : Nat) : ConfigData :=
  { cd with switchlist :=
      cd.switchlist.set ID ({ cd.switchlist.getD ID default with lastfreq := cd.freq }) }

/-- The rate-change detector (source lines 425–448), given the state `cd2`
right after an accepted ToOn of switch `ID`.  Returns the updated
configuration, the `Action` calls made, and the divisors used by the
baseline/current ratio.  Runs only for switch 0, only with a nonzero
frequency estimate and a configured rate-change action.  With no baseline
yet it establishes one — and fires the action — once the ring has no empty
slot; with a baseline it compares `lastfreq / freq` (exact-rational model of
the source's `double` arithmetic) against `1 ± ratechangeamt/100`. -/
def rateDetect (cd2 : ConfigData) (ID : Nat) : ConfigData × List ActionCall × List Int :=
  if ID = 0 ∧ cd2.freq ≠ 0 ∧ cd2.ratechange.isSome = true then
    let sw0 := cd2.switchlist.getD 0 default
    if sw0.lastfreq = 0 then
      if ((histList sw0).filter (fun x => decide (x = 0))).length = 0 then
        (setLastfreq cd2 0, [⟨.rateSite, cd2.ratechange⟩], [])
      else (cd2, [], [])
    else
      let rat : ℚ := (sw0.lastfreq : ℚ) / (cd2.freq : ℚ)
      if rat > 1 + (cd2.ratechangeamt : ℚ) / 100 ∨ rat < 1 - (cd2.ratechangeamt : ℚ) / 100 then
        (setLastfreq cd2 ID, [⟨.rateSite, cd2.ratechange⟩], [cd2.freq])
      else (cd2, [], [cd2.freq])
  else (cd2, [], [])

/-- The body of `main`'s per-switch scan loop (source lines 393–469) for one
switch `ID`, given the current time `t` and the raw sampled levels `raw`.
Returns the updated state together with the effect deltas of this body run.

On a validated ToOn: the stored state is set, the interval ring is shifted,
`LastOn` is set, `cd.freq` is recomputed from switch 0, the environment is
published, the on-action fires, and the rate-change detector runs.  On a
validated ToOff: for `ID == 0` the overdue-notice flag resets, the stored
state and `LastOff` are set, the environment is published and the
off-action fires.  A sample inside the bounce window hits `continue`. -/
def switchBody (t : Int) (raw : Nat → Bool) (cd : ConfigData) (notified : Bool)
    (ID : Nat) : ScanAcc :=
  let sw := cd.switchlist.getD ID default
  if sw.initialized = true then
    let state := raw ID
    if state ≠ sw.state then
      if state = true then
        if t - sw.LastOff < sw.bouncedelay then noChange cd notified
        else
          let sw1 := toOnSwitch t sw
          let cd2 := setFreq (setSwitch cd ID sw1)
          let env1 := SetEnvironment (cd2.switchlist.getD 0 default) cd2
          let r := rateDetect cd2 ID
          ⟨r.1, notified, ⟨.onSite ID, sw1.OnAction⟩ :: r.2.1, [(ID, .ToOn)],
           r.2.2, [env1]⟩
      else
        if t - sw.LastOff < sw.bouncedelay then noChange cd notified
        else
          let sw1 := toOffSwitch t sw
          let cd1 := setSwitch cd ID sw1
          ⟨cd1, if ID = 0 then false else notified,
           [⟨.offSite ID, sw1.OffAction⟩], [(ID, .ToOff)], [],
           [SetEnvironment (cd1.switchlist.getD 0 default) cd1]⟩
    else noChange cd notified
  else noChange cd notified

/-- One step of the scan fold: run the loop body for `ID` and append its
effect deltas to the accumulator. -/
def processSwitch (t : Int) (raw : Nat → Bool) : ScanAcc → Nat → ScanAcc
  | ⟨cd, notified, cs, trs, ds, es⟩, ID =>
      match switchBody t raw cd notified ID with
      | ⟨cd1, notified1, c, tr, d, e⟩ =>
          ⟨cd1, notified1, cs ++ c, trs ++ tr, ds ++ d, es ++ e⟩

/-- `main`'s `for (ID=0;ID<100;ID++)` scan over the whole switch array. -/
def scanSwitches (t : Int) (raw : Nat → Bool) (acc : ScanAcc) : ScanAcc :=
  (List.range 100).foldl (fun a ID => processSwitch t raw a ID) acc

/-- The overdue check at the top of `main`'s loop (source lines 374–383):
while switch 0 is On and no notice has fired yet, if the frequency estimate
is nonzero and `t - LastOff >= freq + overduethreshold`, mark the episode as
notified and call `Action(cd.overdue)` (a no-op when no template is
configured).  Returns the new flag and the `Action` call, if any. -/
def overdueStage (t : Int) (cd : ConfigData) (notified : Bool) : Bool × List ActionCall :=
  let sw0 := cd.switchlist.getD 0 default
  if sw0.state = true ∧ notified = false then
    let freqtemp := GetFrequency sw0
    if t - sw0.LastOff ≥ freqtemp + cd.overduethreshold ∧ freqtemp ≠ 0 then
      (true, [⟨.overdueSite, cd.overdue⟩])
    else (notified, [])
  else (notified, [])

/-- The per-tick mutable state of `main`'s polling loop. -/
structure LoopState where
  cd : ConfigData
  overduenotice : Bool
  LastConfigCheck : Int
  hash : String
deriving DecidableEq

/-- The external world for one tick: the current time, the raw GPIO levels,
and the config source as seen by a reload attempted this tick (fingerprint
read-back and parsed content, `none` = unreadable). -/
structure TickInput where
  t : Int
  raw : Nat → Bool
  cfgFingerprint : Option String
  cfgContent : Option (List ConfigLine)

/-- The result of one tick: the next loop state plus the tick's observable
effects. -/
structure TickOutput where
  state : LoopState
  calls : List ActionCall
  trans : List (Nat × Transition)
  divisors : List Int
  envs : List (List (String × String))

/-- One iteration of `main`'s `while (!Terminated)` loop: the overdue check,
then the rate-limited config-change check (every 180 s; the non-initial
`RefreshConfig` never exits, so `getD` never takes its fallback), then the
switch scan. -/
def tick (st : LoopState) (inp : TickInput) : TickOutput :=
  let p := overdueStage inp.t st.cd st.overduenotice
  let c :=
    if inp.t - st.LastConfigCheck > 180 then
      ((RefreshConfig false st.cd st.hash inp.cfgFingerprint inp.cfgContent).getD
        (st.cd, st.hash), inp.t)
    else ((st.cd, st.hash), st.LastConfigCheck)
  let s := scanSwitches inp.t inp.raw ⟨c.1.1, p.1, [], [], [], []⟩
  ⟨⟨s.cd, s.overduenotice, c.2, c.1.2⟩, p.2 ++ s.calls, s.trans, s.divisors, s.envs⟩

/-- Did the tick reach the overdue `Action` call site? -/
def overdueFiredB (o : TickOutput) : Bool :=
  o.calls.any (fun c => decide (c.site = .overdueSite))

/-- Did the tick record a validated ToOff transition of switch 0? -/
def toOff0B (o : TickOutput) : Bool :=
  o.trans.any (fun p => decide (p.1 = 0 ∧ p.2 = Transition.ToOff))

/-- The loop state after a tick. -/
def tickState (st : LoopState) (inp : TickInput) : LoopState := (tick st inp).state

/-- The loop state at the start of tick `n` of a run. -/
def stateAt (st : LoopState) (inputs : List TickInput) (n : Nat) : LoopState :=
  (inputs.take n).foldl tickState st

/-- Does the overdue action fire during tick `i` of a run? -/
def firesAtB (st : LoopState) (inputs : List TickInput) (i : Nat) : Bool :=
  match inputs[i]? with
  | some inp => overdueFiredB (tick (stateAt st inputs i) inp)
  | none => false

/-- Does switch 0 make a validated ToOff transition during tick `i` of a run? -/
def toOff0AtB (st : LoopState) (inputs : List TickInput) (i : Nat) : Bool :=
  match inputs[i]? with
  | some inp => toOff0B (tick (stateAt st inputs i) inp)
  | none => false

/-- The overdue-fire condition of source lines 375–378, evaluated on the
configuration and flag a tick starts with, at current time `t`: switch 0 On,
notice not yet fired, `t - LastOff >= GetFrequency + overduethreshold`, and
a nonzero frequency estimate. -/
def overdueCondB (cd : ConfigData) (notified : Bool) (t : Int) : Bool :=
  let sw0 := cd.switchlist.getD 0 default
  sw0.state && !notified &&
    (decide (t - sw0.LastOff ≥ GetFrequency sw0 + cd.overduethreshold) &&
     decide (GetFrequency sw0 ≠ 0))

/-- The per-switch runtime fields that a hot reload must not disturb:
validated state, transition timestamps, the interval-history ring, and the
rate-change baseline. -/
def runtimeView (s : FloatSwitch) : Bool × Int × Int × List Int × Int :=
  (s.state, s.LastOn, s.LastOff, histList s, s.lastfreq)

/-- The per-switch hardware binding fixed at first load. -/
def bindingView (s : FloatSwitch) : Int × Bool := (s.pin, s.initialized)

/-- The sump geometry fixed at first load. -/
def geometryView (cd : ConfigData) : Int × Int × Int × Int :=
  (cd.sumpdepth, cd.sumpdiameter, cd.lowwater, cd.highwater)

/-- `cd'` agrees with `cd` on every switch's runtime fields and hardware
binding and on the sump geometry. -/
def PreservesRuntime (cd cd' : ConfigData) : Prop :=
  (∀ id : Nat, runtimeView (cd'.switchlist.getD id default) =
      runtimeView (cd.switchlist.getD id default)) ∧
  (∀ id : Nat, bindingView (cd'.switchlist.getD id default) =
      bindingView (cd.switchlist.getD id default)) ∧
  geometryView cd' = geometryView cd

/-! ### Concrete fixtures for witnesses and counterexamples -/

/-- A switch record with the given four interval-ring slots and every other
field at its sentinel value. -/
def mkHist (a b c d : Int) : FloatSwitch :=
  { (default : FloatSwitch) with freq0 := a, freq1 := b, freq2 := c, freq3 := d }

/-- A bound switch that is currently On with a fully populated ring of
10-second intervals. -/
def swOn10 : FloatSwitch :=
  { (default : FloatSwitch) with
      initialized := true, pin := 1, state := true,
      freq0 := 10, freq1 := 10, freq2 := 10, freq3 := 10 }

/-- A configuration with a single bound switch `swOn10` and no actions. -/
def cdTrace : ConfigData :=
  { sumpdepth := 0, sumpdiameter := 0, lowwater := 0, highwater := 0, capacity := 0,
    vol := 0, rate := 0, freq := 0, ratechangeamt := 0, ratechange := none,
    switchlist := [swOn10], overduethreshold := 0, overdue := none }

/-- A loop state over `cdTrace` whose next config check is far in the future. -/
def stTrace : LoopState :=
  { cd := cdTrace, overduenotice := false, LastConfigCheck := 1000, hash := "" }

/-- Four ticks: switch 0 stays On (overdue fires at t=20), goes Off at t=30,
On again at t=40, and is overdue once more at t=60. -/
def inTrace : List TickInput :=
  [⟨20, fun _ => true, none, none⟩, ⟨30, fun _ => false, none, none⟩,
   ⟨40, fun _ => true, none, none⟩, ⟨60, fun _ => true, none, none⟩]

/-- A bound Off switch whose ring still has one empty slot; its next ToOn at
t=100 shifts the ring to [60,70,80,60], fully populating it. -/
def swC2 : FloatSwitch :=
  { (default : FloatSwitch) with
      initialized := true, pin := 1, state := false,
      LastOn := 40, freq0 := 0, freq1 := 60, freq2 := 70, freq3 := 80 }

/-- `swC2` with a configured rate-change action and no baseline yet. -/
def cdC2 : ConfigData :=
  { cdTrace with ratechange := some "rc", switchlist := [swC2] }

/-- A bound Off switch with no history at all (`LastOn = 0`); its first ToOn
leaves the ring all-zero, so the frequency estimate stays 0. -/
def swC9 : FloatSwitch :=
  { (default : FloatSwitch) with
      initialized := true, pin := 1, state := false, freq0 := 5 }

/-- `swC9` with a configured rate-change action. -/
def cdC9 : ConfigData :=
  { cdTrace with ratechange := some "rc", switchlist := [swC9] }

/-- A loop state mid-On-episode with a 100-second overdue threshold, no
overdue action configured, and a config check due. -/
def st10 : LoopState :=
  { cd := { cdTrace with overduethreshold := 100 }, overduenotice := false,
    LastConfigCheck := -200, hash := "h1" }

/-- A tick at t=50 (condition not yet met) whose config check installs an
overdue action via hot reload. -/
def inp10a : TickInput := ⟨50, fun _ => true, some "h2", some [ConfigLine.overdueL "OD"]⟩

/-- A later tick at t=200 in the same On-episode, once the overdue condition
has become true. -/
def inp10b : TickInput := ⟨200, fun _ => true, some "h2", some []⟩

/-- The reparse result of `cdTrace` under the two-directive reload used by
the hot-reload witness: only the bounce window and overdue threshold change. -/
def cdReload : ConfigData :=
  { cdTrace with switchlist := [{ swOn10 with bouncedelay := 9 }], overduethreshold := 7 }

set_option maxRecDepth 2000

/-- The sample geometry from the source's config example with a 150-second
frequency estimate. -/
def cdW7 : ConfigData :=
  { cdTrace with sumpdiameter := 510, lowwater := 114, highwater := 222, freq := 150 }

/-! ### List index helpers -/

lemma getD_set_self {α : Type} [Inhabited α] (l : List α) (i : Nat) (v : α)
    (h : i < l.length) : (l.set i v).getD i default = v := by
  simp [List.getD, List.getElem?_set_self, h]

lemma getD_set_ne {α : Type} [Inhabited α] (l : List α) (i j : Nat) (v : α)
    (h : i ≠ j) : (l.set i v).getD j default = l.getD j default := by
  simp [List.getD, List.getElem?_set_ne h]

lemma getD_oob {α : Type} [Inhabited α] (l : List α) (i : Nat)
    (h : l.length ≤ i) : l.getD i default = default := by
  simp [List.getD, List.getElem?_eq_none h]

/-- If a switch slot reads back as initialized it must lie inside the list,
since the out-of-range default is uninitialized. -/
lemma lt_length_of_initialized (l : List FloatSwitch) (i : Nat)
    (h : (l.getD i default).initialized = true) : i < l.length := by
  by_contra hlt
  rw [getD_oob l i (Nat.le_of_not_lt hlt)] at h
  simp [default] at h

/-! ### Sum and count over the interval ring -/

lemma sum_filter_nonzero : ∀ l : List Int,
    (l.filter (fun x => !decide (x = 0))).sum = l.sum
  | [] => rfl
  | a :: l => by
    by_cases h : a = 0 <;>
      simp [List.filter_cons, h, sum_filter_nonzero l]

lemma length_filter_split : ∀ l : List Int,
    (l.filter (fun x => !decide (x = 0))).length +
      (l.filter (fun x => decide (x = 0))).length = l.length
  | [] => rfl
  | a :: l => by
    by_cases h : a = 0 <;>
      simp [List.filter_cons, h, ← length_filter_split l] <;> omega

/-! ### Structure of the scan-loop body -/

lemma setFreq_switchlist (cd : ConfigData) : (setFreq cd).switchlist = cd.switchlist := rfl

lemma setSwitch_switchlist (cd : ConfigData) (ID : Nat) (sw : FloatSwitch) :
    (setSwitch cd ID sw).switchlist = cd.switchlist.set ID sw := rfl

lemma setLastfreq_proj {β : Type} (g : FloatSwitch → β)
    (hg : ∀ s v, g { s with lastfreq := v } = g s) (cd : ConfigData) (j id : Nat) :
    g ((setLastfreq cd j).switchlist.getD id default) =
      g (cd.switchlist.getD id default) := by
  unfold setLastfreq
  by_cases h : j = id
  · subst h
    by_cases hl : j < cd.switchlist.length
    · rw [getD_set_self _ _ _ hl, hg]
    · rw [List.set_eq_of_length_le (Nat.le_of_not_lt hl)]
  · rw [getD_set_ne _ _ _ _ h]

lemma setLastfreq_getD_self (cd : ConfigData) (j : Nat) (h : j < cd.switchlist.length) :
    (setLastfreq cd j).switchlist.getD j default =
      { cd.switchlist.getD j default with lastfreq := cd.freq } :=
  getD_set_self _ _ _ h

/-- The four possible outcomes of the rate-change detector. -/
lemma rateDetect_eq (cd2 : ConfigData) (ID : Nat) :
    rateDetect cd2 ID = (cd2, [], []) ∨
    (cd2.freq ≠ 0 ∧ rateDetect cd2 ID = (cd2, [], [cd2.freq])) ∨
    (cd2.freq ≠ 0 ∧
      rateDetect cd2 ID = (setLastfreq cd2 0, [⟨.rateSite, cd2.ratechange⟩], [])) ∨
    (cd2.freq ≠ 0 ∧
      rateDetect cd2 ID = (setLastfreq cd2 ID, [⟨.rateSite, cd2.ratechange⟩], [cd2.freq])) := by
  simp only [rateDetect]
  by_cases h1 : (ID = 0 ∧ cd2.freq ≠ 0 ∧ cd2.ratechange.isSome = true)
  · rw [if_pos h1]
    by_cases h2 : (cd2.switchlist.getD 0 default).lastfreq = 0
    · rw [if_pos h2]
      by_cases h3 : ((histList (cd2.switchlist.getD 0 default)).filter
          (fun x => decide (x = 0))).length = 0
      · rw [if_pos h3]; exact Or.inr (Or.inr (Or.inl ⟨h1.2.1, rfl⟩))
      · rw [if_neg h3]; exact Or.inl rfl
    · rw [if_neg h2]
      by_cases h4 : ((((cd2.switchlist.getD 0 default).lastfreq : ℚ) / (cd2.freq : ℚ)) >
            1 + (cd2.ratechangeamt : ℚ) / 100 ∨
          (((cd2.switchlist.getD 0 default).lastfreq : ℚ) / (cd2.freq : ℚ)) <
            1 - (cd2.ratechangeamt : ℚ) / 100)
      · rw [if_pos h4]; exact Or.inr (Or.inr (Or.inr ⟨h1.2.1, rfl⟩))
      · rw [if_neg h4]; exact Or.inr (Or.inl ⟨h1.2.1, rfl⟩)
  · rw [if_neg h1]; exact Or.inl rfl

lemma rateDetect_cases (cd2 : ConfigData) (ID : Nat) :
    (rateDetect cd2 ID).1 = cd2 ∨ ∃ j, (rateDetect cd2 ID).1 = setLastfreq cd2 j := by
  rcases rateDetect_eq cd2 ID with h | ⟨-, h⟩ | ⟨-, h⟩ | ⟨-, h⟩ <;> rw [h]
  · exact Or.inl rfl
  · exact Or.inl rfl
  · exact Or.inr ⟨0, rfl⟩
  · exact Or.inr ⟨ID, rfl⟩

lemma rateDetect_calls (cd2 : ConfigData) (ID : Nat) :
    ∀ c ∈ (rateDetect cd2 ID).2.1, c.site = ActionSite.rateSite := by
  rcases rateDetect_eq cd2 ID with h | ⟨-, h⟩ | ⟨-, h⟩ | ⟨-, h⟩ <;> rw [h] <;> simp

lemma histList_lastfreq (s : FloatSwitch) (v : Int) :
    histList { s with lastfreq := v } = histList s := rfl

lemma rateDetect_divisors (cd2 : ConfigData) (ID : Nat) :
    (0 : Int) ∉ (rateDetect cd2 ID).2.2 := by
  rcases rateDetect_eq cd2 ID with h | ⟨hf, h⟩ | ⟨hf, h⟩ | ⟨hf, h⟩ <;> rw [h] <;>
    simp <;> omega

lemma rateDetect_skip (cd2 : ConfigData) (ID : Nat) (h : cd2.freq = 0) :
    rateDetect cd2 ID = (cd2, [], []) := by
  simp only [rateDetect]
  rw [if_neg (by simp [h])]

lemma rateDetect_freq (cd2 : ConfigData) (ID : Nat) :
    (rateDetect cd2 ID).1.freq = cd2.freq := by
  rcases rateDetect_cases cd2 ID with h | ⟨j, h⟩
  · rw [h]
  · rw [h]
    rfl

lemma rateDetect_state (cd2 : ConfigData) (ID id : Nat) :
    ((rateDetect cd2 ID).1.switchlist.getD id default).state =
      (cd2.switchlist.getD id default).state := by
  rcases rateDetect_cases cd2 ID with h | ⟨j, h⟩ <;> rw [h]
  exact setLastfreq_proj (fun s => s.state) (fun s v => rfl) cd2 j id

lemma rateDetect_LastOn (cd2 : ConfigData) (ID id : Nat) :
    ((rateDetect cd2 ID).1.switchlist.getD id default).LastOn =
      (cd2.switchlist.getD id default).LastOn := by
  rcases rateDetect_cases cd2 ID with h | ⟨j, h⟩ <;> rw [h]
  exact setLastfreq_proj (fun s => s.LastOn) (fun s v => rfl) cd2 j id

lemma rateDetect_LastOff (cd2 : ConfigData) (ID id : Nat) :
    ((rateDetect cd2 ID).1.switchlist.getD id default).LastOff =
      (cd2.switchlist.getD id default).LastOff := by
  rcases rateDetect_cases cd2 ID with h | ⟨j, h⟩ <;> rw [h]
  exact setLastfreq_proj (fun s => s.LastOff) (fun s v => rfl) cd2 j id

/-- Every run of the scan-loop body is a `continue`/no-op, an accepted ToOn,
or an accepted ToOff, with the exact effects listed here. -/
lemma switchBody_shape (t : Int) (raw : Nat → Bool) (cd : ConfigData)
    (notified : Bool) (ID : Nat) :
    switchBody t raw cd notified ID = noChange cd notified ∨
    switchBody t raw cd notified ID =
      ⟨(rateDetect (setFreq (setSwitch cd ID (toOnSwitch t (cd.switchlist.getD ID default)))) ID).1,
       notified,
       ⟨.onSite ID, (toOnSwitch t (cd.switchlist.getD ID default)).OnAction⟩ ::
         (rateDetect (setFreq (setSwitch cd ID (toOnSwitch t (cd.switchlist.getD ID default)))) ID).2.1,
       [(ID, .ToOn)],
       (rateDetect (setFreq (setSwitch cd ID (toOnSwitch t (cd.switchlist.getD ID default)))) ID).2.2,
       [SetEnvironment
          ((setFreq (setSwitch cd ID (toOnSwitch t (cd.switchlist.getD ID default)))).switchlist.getD 0 default)
          (setFreq (setSwitch cd ID (toOnSwitch t (cd.switchlist.getD ID default))))]⟩ ∨
    switchBody t raw cd notified ID =
      ⟨setSwitch cd ID (toOffSwitch t (cd.switchlist.getD ID default)),
       (if ID = 0 then false else notified),
       [⟨.offSite ID, (toOffSwitch t (cd.switchlist.getD ID default)).OffAction⟩],
       [(ID, .ToOff)], [],
       [SetEnvironment
          ((setSwitch cd ID (toOffSwitch t (cd.switchlist.getD ID default))).switchlist.getD 0 default)
          (setSwitch cd ID (toOffSwitch t (cd.switchlist.getD ID default)))]⟩ := by
  simp only [switchBody]
  repeat' split
  all_goals simp

/-! ### C4 -/

/-- C4: `GetFrequency` returns the average (C integer division) of the
nonzero entries of the 4-slot interval-history ring, and returns 0 when all
four entries are zero; history [0,0,0,0] yields 0, [100,0,0,0] yields 100,
and [100,200,0,0] yields 150. -/
theorem C4_GetFrequency (s : FloatSwitch) :
    (((histList s).all fun x => decide (x = 0)) = true → GetFrequency s = 0) ∧
    (((histList s).all fun x => decide (x = 0)) = false →
      GetFrequency s =
        Int.tdiv ((histList s).filter fun x => !decide (x = 0)).sum
          ((((histList s).filter fun x => !decide (x = 0)).length : Nat) : Int)) ∧
    GetFrequency (mkHist 0 0 0 0) = 0 ∧
    GetFrequency (mkHist 100 0 0 0) = 100 ∧
    GetFrequency (mkHist 100 200 0 0) = 150 := by
  obtain ⟨ini, lv, p, oa, ob, f0, f1, f2, f3, lf, stt, lon, loff, bd⟩ := s
  refine ⟨?_, ?_, by decide, by decide, by decide⟩ <;>
    intro h <;>
    by_cases h0 : f0 = 0 <;> by_cases h1 : f1 = 0 <;>
    by_cases h2 : f2 = 0 <;> by_cases h3 : f3 = 0 <;>
    simp_all [GetFrequency, histList, FREQ_HISTORY, List.filter] <;>
    try ring_nf

/-- C4 witness: the theorem applied to the ring [100,200,0,0], discharging
the not-all-zero hypothesis. -/
theorem C4_GetFrequency_witness :
    ((histList (mkHist 100 200 0 0)).all fun x => decide (x = 0)) = false ∧
    GetFrequency (mkHist 100 200 0 0) =
      Int.tdiv ((histList (mkHist 100 200 0 0)).filter fun x => !decide (x = 0)).sum
        ((((histList (mkHist 100 200 0 0)).filter fun x => !decide (x = 0)).length : Nat) : Int) :=
  ⟨by decide, (C4_GetFrequency (mkHist 100 200 0 0)).2.1 (by decide)⟩

/-! ### C8 -/

/-- C8: the exact environment names `SetEnvironment` publishes, in order.
`SAFREQM` — documented in the program's own header comment ("An integer
representing the number of minutes between Switch0 ON events") and in the
spec's table — is never set; the code sets `SAFREQF` (the "Xm Ys" form)
instead. -/
theorem C8_SetEnvironment_names (s : FloatSwitch) (cd : ConfigData) :
    (SetEnvironment s cd).map Prod.fst =
      ["SAFREQ", "SAFREQF", "SAVOLUME", "SARATE", "SATIMELEFT", "SATIMELEFTM"] ∧
    "SAFREQM" ∉ (SetEnvironment s cd).map Prod.fst := by
  have h : (SetEnvironment s cd).map Prod.fst =
      ["SAFREQ", "SAFREQF", "SAVOLUME", "SARATE", "SATIMELEFT", "SATIMELEFTM"] := rfl
  exact ⟨h, by rw [h]; decide⟩

/-! ### C7 -/

lemma tdiv_natCast (m n : Nat) :
    Int.tdiv ((m : Nat) : Int) ((n : Nat) : Int) = ((m / n : Nat) : Int) := rfl

lemma nat_div3600_60 (A R : Nat) : A * 3600 / R / 60 = A * 60 / R := by
  rw [Nat.div_div_eq_div_mul, Nat.mul_comm R 60, ← Nat.div_div_eq_div_mul,
    Nat.mul_div_assoc A (by norm_num : (60 : Nat) ∣ 3600)]

/-- C7: the derived metrics before dispatch.  When the frequency estimate is
positive, the rate is the truncation of
`crossSectionalArea(diameter) * (highWater - lowWater) * 3600 / frequency`;
a zero frequency yields rate 0.  When the rate is positive, the time left is
`(capacity - volume) * 3600 / rate` seconds (C integer division) — whose
minutes form agrees with the §4.3 formula `(capacity - volume) * 60 / rate`
— and a zero rate yields time-left 0 rather than an error. -/
theorem C7_metrics (cd : ConfigData) :
    (0 < cd.freq →
      computeRate cd =
        cTrunc (crossSectionalArea (cd.sumpdiameter : ℚ) *
          ((cd.highwater : ℚ) - (cd.lowwater : ℚ)) * 3600 / (cd.freq : ℚ))) ∧
    (cd.freq = 0 → computeRate cd = 0) ∧
    (∀ cap vol rate : Int, 0 < rate →
      timeleftOf cap vol rate = Int.tdiv ((cap - vol) * 3600) rate) ∧
    (∀ cap vol : Int, timeleftOf cap vol 0 = 0) ∧
    (∀ cap vol rate : Int, 0 < rate → 0 ≤ cap - vol →
      Int.tdiv (timeleftOf cap vol rate) 60 = Int.tdiv ((cap - vol) * 60) rate) := by
  refine ⟨?_, ?_, ?_, ?_, ?_⟩
  · intro h
    rw [computeRate, if_pos (by omega : cd.freq ≠ 0)]
    congr 1
    rw [crossSectionalArea]
    ring
  · intro h
    rw [computeRate]
    simp [h]
  · intro cap vol rate h
    rw [timeleftOf, if_neg (by omega : ¬rate = 0)]
  · intro cap vol
    rw [timeleftOf, if_pos rfl]
  · intro cap vol rate h1 h2
    rw [timeleftOf, if_neg (by omega : ¬rate = 0)]
    obtain ⟨A, hA⟩ : ∃ A : Nat, cap - vol = (A : Int) :=
      ⟨(cap - vol).toNat, (Int.toNat_of_nonneg h2).symm⟩
    obtain ⟨R, hR⟩ : ∃ R : Nat, rate = (R : Int) :=
      ⟨rate.toNat, (Int.toNat_of_nonneg h1.le).symm⟩
    rw [hA, hR]
    have h36 : ((A : Int) * 3600) = ((A * 3600 : Nat) : Int) := by push_cast; ring
    have h60 : ((A : Int) * 60) = ((A * 60 : Nat) : Int) := by push_cast; ring
    rw [h36, h60, tdiv_natCast, tdiv_natCast]
    have hc : (60 : Int) = ((60 : Nat) : Int) := rfl
    rw [hc, tdiv_natCast]
    exact_mod_cast congrArg (fun n : Nat => (n : Int)) (nat_div3600_60 A R)

/-- C7 witness: the theorem applied to `cdW7`, and time-left at capacity 155,
volume 3, rate 7. -/
theorem C7_metrics_witness :
    (0 < cdW7.freq ∧
      computeRate cdW7 =
        cTrunc (crossSectionalArea (cdW7.sumpdiameter : ℚ) *
          ((cdW7.highwater : ℚ) - (cdW7.lowwater : ℚ)) * 3600 / (cdW7.freq : ℚ))) ∧
    ((0 : Int) < 7 ∧ (0 : Int) ≤ 155 - 3 ∧
      timeleftOf 155 3 7 = Int.tdiv ((155 - 3) * 3600) 7 ∧
      Int.tdiv (timeleftOf 155 3 7) 60 = Int.tdiv ((155 - 3) * 60) 7) :=
  ⟨⟨by decide, (C7_metrics cdW7).1 (by decide)⟩,
   by decide, by decide,
   (C7_metrics cdTrace).2.2.1 155 3 7 (by decide),
   (C7_metrics cdTrace).2.2.2.2 155 3 7 (by decide) (by decide)⟩

/-! ### C3 -/

/-- C3: the debounce contract of `main`'s scan-loop body.  For a bound
switch whose raw level differs from the stored state: inside the bounce
window (measured from `LastOff` in both directions) the body is a complete
no-op; outside it, the transition is accepted — a rising edge stores state
On and stamps `LastOn` (leaving `LastOff` untouched), a falling edge stores
state Off and stamps `LastOff` (leaving `LastOn` untouched). -/
theorem C3_debounce (t : Int) (raw : Nat → Bool) (cd : ConfigData) (notified : Bool) (ID : Nat)
    (hinit : (cd.switchlist.getD ID default).initialized = true)
    (hdiff : raw ID ≠ (cd.switchlist.getD ID default).state) :
    (t - (cd.switchlist.getD ID default).LastOff < (cd.switchlist.getD ID default).bouncedelay →
      switchBody t raw cd notified ID = noChange cd notified) ∧
    ((cd.switchlist.getD ID default).bouncedelay ≤ t - (cd.switchlist.getD ID default).LastOff →
      (raw ID = true →
        ((switchBody t raw cd notified ID).cd.switchlist.getD ID default).state = true ∧
        ((switchBody t raw cd notified ID).cd.switchlist.getD ID default).LastOn = t ∧
        ((switchBody t raw cd notified ID).cd.switchlist.getD ID default).LastOff =
          (cd.switchlist.getD ID default).LastOff ∧
        (switchBody t raw cd notified ID).trans = [(ID, Transition.ToOn)]) ∧
      (raw ID = false →
        ((switchBody t raw cd notified ID).cd.switchlist.getD ID default).state = false ∧
        ((switchBody t raw cd notified ID).cd.switchlist.getD ID default).LastOff = t ∧
        ((switchBody t raw cd notified ID).cd.switchlist.getD ID default).LastOn =
          (cd.switchlist.getD ID default).LastOn ∧
        (switchBody t raw cd notified ID).trans = [(ID, Transition.ToOff)])) := by
  have hlen := lt_length_of_initialized cd.switchlist ID hinit
  constructor
  · intro hb
    cases hr : raw ID
    · have hst : (cd.switchlist.getD ID default).state = true := by
        cases hsw : (cd.switchlist.getD ID default).state
        · rw [hr, hsw] at hdiff; exact absurd rfl hdiff
        · rfl
      simp only [switchBody, hr, hinit, hst, if_true, ne_eq, Bool.false_eq_true,
        not_false_eq_true, if_pos hb, reduceIte]
    · have hst : (cd.switchlist.getD ID default).state = false := by
        cases hsw : (cd.switchlist.getD ID default).state
        · rfl
        · rw [hr, hsw] at hdiff; exact absurd rfl hdiff
      simp only [switchBody, hr, hinit, hst, if_true, ne_eq, Bool.true_eq_false,
        not_false_eq_true, if_pos hb, reduceIte]
  · intro hb
    constructor
    · intro hr
      have hst : (cd.switchlist.getD ID default).state = false := by
        cases hsw : (cd.switchlist.getD ID default).state
        · rfl
        · rw [hr, hsw] at hdiff; exact absurd rfl hdiff
      simp only [switchBody, hr, hinit, hst, ne_eq, Bool.true_eq_false,
        not_false_eq_true, if_neg (not_lt.mpr hb), reduceIte]
      refine ⟨?_, ?_, ?_, by trivial⟩
      · rw [rateDetect_state, setFreq_switchlist, setSwitch_switchlist,
          getD_set_self _ _ _ hlen]
        rfl
      · rw [rateDetect_LastOn, setFreq_switchlist, setSwitch_switchlist,
          getD_set_self _ _ _ hlen]
        rfl
      · rw [rateDetect_LastOff, setFreq_switchlist, setSwitch_switchlist,
          getD_set_self _ _ _ hlen]
        rfl
    · intro hr
      have hst : (cd.switchlist.getD ID default).state = true := by
        cases hsw : (cd.switchlist.getD ID default).state
        · rw [hr, hsw] at hdiff; exact absurd rfl hdiff
        · rfl
      simp only [switchBody, hr, hinit, hst, ne_eq, Bool.false_eq_true,
        not_false_eq_true, if_neg (not_lt.mpr hb), reduceIte]
      refine ⟨?_, ?_, ?_, by trivial⟩ <;>
        rw [setSwitch_switchlist, getD_set_self _ _ _ hlen] <;> rfl

/-- C3 witness: the theorem applied to switch 0 of `cdC2` at t=100 with a
high raw level (an accepted ToOn), discharging every hypothesis. -/
theorem C3_debounce_witness :
    ((switchBody 100 (fun _ => true) cdC2 false 0).cd.switchlist.getD 0 default).state = true ∧
    ((switchBody 100 (fun _ => true) cdC2 false 0).cd.switchlist.getD 0 default).LastOn = 100 ∧
    ((switchBody 100 (fun _ => true) cdC2 false 0).cd.switchlist.getD 0 default).LastOff =
      (cdC2.switchlist.getD 0 default).LastOff ∧
    (switchBody 100 (fun _ => true) cdC2 false 0).trans = [(0, Transition.ToOn)] :=
  ((C3_debounce 100 (fun _ => true) cdC2 false 0 (by decide) (by decide)).2
    (by decide)).1 (by decide)

/-! ### C2 -/

/-- C2 counterexample: on the ToOn of switch 0 at t=100 from `cdC2` (no
baseline, rate-change action configured), the ring becomes fully populated —
and the very same tick both records the first baseline (67) and fires the
rate-change action, contradicting the claim that no action fires on the
establishing tick. -/
theorem C2_counterexample :
    (cdC2.switchlist.getD 0 default).lastfreq = 0 ∧
    cdC2.ratechange = some "rc" ∧
    ((histList ((switchBody 100 (fun _ => true) cdC2 false 0).cd.switchlist.getD 0 default)).filter
      (fun x => decide (x = 0))).length = 0 ∧
    ((switchBody 100 (fun _ => true) cdC2 false 0).cd.switchlist.getD 0 default).lastfreq = 67 ∧
    (switchBody 100 (fun _ => true) cdC2 false 0).calls.any
      (fun c => decide (c.site = ActionSite.rateSite)) = true ∧
    "rc" ∈ dispatched (switchBody 100 (fun _ => true) cdC2 false 0).calls := by
  exact ⟨by decide, by decide, by decide, by decide, by decide, by decide⟩

/-- C2 (amended): on a validated switch 0 ToOn with a rate-change action
configured and no baseline yet, the baseline is recorded exactly when the
frequency estimate is nonzero and the updated ring has no empty slots — and
the rate-change action fires on precisely that same establishing tick. -/
theorem C2_baseline (t : Int) (raw : Nat → Bool) (cd : ConfigData) (notified : Bool)
    (hinit : (cd.switchlist.getD 0 default).initialized = true)
    (hraw : raw 0 = true)
    (hstate : (cd.switchlist.getD 0 default).state = false)
    (haccept : (cd.switchlist.getD 0 default).bouncedelay ≤
      t - (cd.switchlist.getD 0 default).LastOff)
    (hbase : (cd.switchlist.getD 0 default).lastfreq = 0)
    (hrc : cd.ratechange.isSome = true) :
    (((switchBody t raw cd notified 0).cd.switchlist.getD 0 default).lastfreq ≠ 0 ↔
      ((switchBody t raw cd notified 0).cd.freq ≠ 0 ∧
        ((histList ((switchBody t raw cd notified 0).cd.switchlist.getD 0 default)).filter
          (fun x => decide (x = 0))).length = 0)) ∧
    ((switchBody t raw cd notified 0).calls.any
        (fun c => decide (c.site = ActionSite.rateSite)) = true ↔
      ((switchBody t raw cd notified 0).cd.freq ≠ 0 ∧
        ((histList ((switchBody t raw cd notified 0).cd.switchlist.getD 0 default)).filter
          (fun x => decide (x = 0))).length = 0)) := by
  have hlen := lt_length_of_initialized cd.switchlist 0 hinit
  simp only [switchBody, hraw, hinit, hstate, ne_eq, Bool.true_eq_false,
    not_false_eq_true, if_neg (not_lt.mpr haccept), reduceIte]
  set cd2 := setFreq (setSwitch cd 0 (toOnSwitch t (cd.switchlist.getD 0 default))) with hcd2
  have hlen2 : 0 < cd2.switchlist.length := by
    rw [hcd2, setFreq_switchlist, setSwitch_switchlist, List.length_set]
    exact hlen
  have hsw0 : cd2.switchlist.getD 0 default = toOnSwitch t (cd.switchlist.getD 0 default) := by
    rw [hcd2, setFreq_switchlist, setSwitch_switchlist, getD_set_self _ _ _ hlen]
  have hlf0 : (cd2.switchlist.getD 0 default).lastfreq = 0 := by
    rw [hsw0]; exact hbase
  have hrc2 : cd2.ratechange.isSome = true := hrc
  by_cases hf : cd2.freq = 0
  · rw [rateDetect_skip _ _ hf]
    dsimp only
    rw [hlf0]
    constructor
    · simp [hf]
    · simp [hf]
  · have hgate : (True ∧ cd2.freq ≠ 0 ∧ cd2.ratechange.isSome = true) :=
      ⟨trivial, hf, hrc2⟩
    by_cases hz : ((histList (cd2.switchlist.getD 0 default)).filter
        (fun x => decide (x = 0))).length = 0
    · have hrd : rateDetect cd2 0 =
          (setLastfreq cd2 0, [⟨.rateSite, cd2.ratechange⟩], []) := by
        simp only [rateDetect]
        rw [if_pos hgate, if_pos hlf0, if_pos hz]
      rw [hrd]
      dsimp only
      rw [setLastfreq_getD_self cd2 0 hlen2, histList_lastfreq]
      dsimp only [setLastfreq]
      constructor
      · rw [eq_true hz]
        simp [hf]
      · rw [eq_true hz]
        simp [hf]
    · have hrd : rateDetect cd2 0 = (cd2, [], []) := by
        simp only [rateDetect]
        rw [if_pos hgate, if_pos hlf0, if_neg hz]
      rw [hrd]
      dsimp only
      rw [hlf0]
      constructor
      · rw [eq_false hz]
        simp
      · rw [eq_false hz]
        simp

/-- C2 witness: the amended theorem applied to `cdC2` at t=100, discharging
every hypothesis; both iff sides are true there. -/
theorem C2_baseline_witness :
    (((switchBody 100 (fun _ => true) cdC2 false 0).cd.switchlist.getD 0 default).lastfreq ≠ 0 ↔
      ((switchBody 100 (fun _ => true) cdC2 false 0).cd.freq ≠ 0 ∧
        ((histList ((switchBody 100 (fun _ => true) cdC2 false 0).cd.switchlist.getD 0 default)).filter
          (fun x => decide (x = 0))).length = 0)) ∧
    ((switchBody 100 (fun _ => true) cdC2 false 0).calls.any
        (fun c => decide (c.site = ActionSite.rateSite)) = true ↔
      ((switchBody 100 (fun _ => true) cdC2 false 0).cd.freq ≠ 0 ∧
        ((histList ((switchBody 100 (fun _ => true) cdC2 false 0).cd.switchlist.getD 0 default)).filter
          (fun x => decide (x = 0))).length = 0)) :=
  C2_baseline 100 (fun _ => true) cdC2 false (by decide) (by decide) (by decide)
    (by decide) (by decide) (by decide)

/-! ### C9 -/

lemma getD_set_lastfreq (l : List FloatSwitch) (i : Nat) (v : FloatSwitch)
    (hv : v.lastfreq = (l.getD i default).lastfreq) (id : Nat) :
    ((l.set i v).getD id default).lastfreq = (l.getD id default).lastfreq := by
  by_cases h : i = id
  · subst h
    by_cases hl : i < l.length
    · rw [getD_set_self _ _ _ hl, hv]
    · rw [List.set_eq_of_length_le (Nat.le_of_not_lt hl)]
  · rw [getD_set_ne _ _ _ _ h]

/-- C9: the rate-change detector never divides by zero, because the entire
detector block is guarded by `cd.freq != 0` (alongside the `ID == 0` and
configured-action gates).  Every divisor the ratio computation ever uses is
nonzero, and whenever the loop body leaves a zero frequency estimate the
detector is skipped entirely: no rate-change `Action` call and every
switch's baseline `lastfreq` left unchanged. -/
theorem C9_rate_zero_guard (t : Int) (raw : Nat → Bool) (cd : ConfigData)
    (notified : Bool) (ID : Nat) :
    ((0 : Int) ∉ (switchBody t raw cd notified ID).divisors) ∧
    ((switchBody t raw cd notified ID).cd.freq = 0 →
      (∀ c ∈ (switchBody t raw cd notified ID).calls, c.site ≠ ActionSite.rateSite) ∧
      (∀ id : Nat, ((switchBody t raw cd notified ID).cd.switchlist.getD id default).lastfreq =
        (cd.switchlist.getD id default).lastfreq)) := by
  rcases switchBody_shape t raw cd notified ID with h | h | h <;> rw [h]
  · exact ⟨by simp [noChange], fun _ => ⟨by simp [noChange], fun id => rfl⟩⟩
  · constructor
    · exact rateDetect_divisors _ _
    · intro hfreq
      simp only at hfreq
      rw [rateDetect_freq] at hfreq
      simp only [rateDetect_skip _ _ hfreq]
      refine ⟨?_, ?_⟩
      · intro c hc
        rcases List.mem_cons.mp hc with hc1 | hc1
        · rw [hc1]; simp
        · simp at hc1
      · intro id
        rw [setFreq_switchlist, setSwitch_switchlist]
        exact getD_set_lastfreq cd.switchlist ID
          (toOnSwitch t (cd.switchlist.getD ID default)) rfl id
  · refine ⟨by simp, fun _ => ⟨by simp, fun id => ?_⟩⟩
    rw [setSwitch_switchlist]
    exact getD_set_lastfreq cd.switchlist ID
      (toOffSwitch t (cd.switchlist.getD ID default)) rfl id

/-- C9 witness: the theorem applied to `cdC9` at t=10, where the first-ever
ToOn of switch 0 leaves an all-zero ring and hence a zero frequency
estimate. -/
theorem C9_rate_zero_guard_witness :
    ((0 : Int) ∉ (switchBody 10 (fun _ => true) cdC9 false 0).divisors) ∧
    ((∀ c ∈ (switchBody 10 (fun _ => true) cdC9 false 0).calls,
        c.site ≠ ActionSite.rateSite) ∧
      (∀ id : Nat,
        ((switchBody 10 (fun _ => true) cdC9 false 0).cd.switchlist.getD id default).lastfreq =
          (cdC9.switchlist.getD id default).lastfreq)) :=
  ⟨(C9_rate_zero_guard 10 (fun _ => true) cdC9 false 0).1,
   (C9_rate_zero_guard 10 (fun _ => true) cdC9 false 0).2 (by decide)⟩

/-! ### C5 -/

lemma preserves_refl (cd : ConfigData) : PreservesRuntime cd cd :=
  ⟨fun _ => rfl, fun _ => rfl, rfl⟩

lemma preserves_trans {a b c : ConfigData} (h1 : PreservesRuntime a b)
    (h2 : PreservesRuntime b c) : PreservesRuntime a c :=
  ⟨fun id => (h2.1 id).trans (h1.1 id), fun id => (h2.2.1 id).trans (h1.2.1 id),
   h2.2.2.trans h1.2.2⟩

lemma updSwitch_proj {β : Type} (g : FloatSwitch → β) (cd : ConfigData) (i : Nat)
    (f : FloatSwitch → FloatSwitch)
    (hg : g (f (cd.switchlist.getD i default)) = g (cd.switchlist.getD i default))
    (id : Nat) :
    g ((updSwitch cd i f).switchlist.getD id default) =
      g (cd.switchlist.getD id default) := by
  unfold updSwitch
  by_cases h : i = id
  · subst h
    by_cases hl : i < cd.switchlist.length
    · rw [getD_set_self _ _ _ hl, hg]
    · rw [List.set_eq_of_length_le (Nat.le_of_not_lt hl)]
  · rw [getD_set_ne _ _ _ _ h]

lemma updSwitch_preserves (cd : ConfigData) (i : Nat) (f : FloatSwitch → FloatSwitch)
    (h1 : ∀ s, runtimeView (f s) = runtimeView s)
    (h2 : ∀ s, bindingView (f s) = bindingView s) :
    PreservesRuntime cd (updSwitch cd i f) :=
  ⟨fun id => updSwitch_proj runtimeView cd i f (h1 _) id,
   fun id => updSwitch_proj bindingView cd i f (h2 _) id, rfl⟩

/-- A single non-initial parse-loop step only touches hot-reloadable fields. -/
lemma applyLine_nonInitial (cd cd1 : ConfigData) (l : ConfigLine)
    (h : applyLine false cd l = some cd1) : PreservesRuntime cd cd1 := by
  cases l with
  | logDirective =>
      simp only [applyLine, Option.some.injEq] at h
      subst h; exact preserves_refl cd
  | sumpDepthL n =>
      simp only [applyLine, Bool.false_eq_true, reduceIte, Option.some.injEq] at h
      subst h; exact preserves_refl cd
  | sumpDiameterL n =>
      simp only [applyLine, Bool.false_eq_true, reduceIte, Option.some.injEq] at h
      subst h; exact preserves_refl cd
  | lowWaterL n =>
      simp only [applyLine, Bool.false_eq_true, reduceIte, Option.some.injEq] at h
      subst h; exact preserves_refl cd
  | highWaterL n =>
      simp only [applyLine, Bool.false_eq_true, reduceIte, Option.some.injEq] at h
      subst h; exact preserves_refl cd
  | rateChangeAmtL n =>
      simp only [applyLine, Option.some.injEq] at h
      subst h; exact ⟨fun _ => rfl, fun _ => rfl, rfl⟩
  | overdueThresholdL n =>
      simp only [applyLine, Option.some.injEq] at h
      subst h; exact ⟨fun _ => rfl, fun _ => rfl, rfl⟩
  | rateChangeL s =>
      by_cases hs : s = "" <;>
        simp only [applyLine, hs, reduceIte, Option.some.injEq] at h <;>
        subst h
      · exact preserves_refl cd
      · exact ⟨fun _ => rfl, fun _ => rfl, rfl⟩
  | overdueL s =>
      by_cases hs : s = "" <;>
        simp only [applyLine, hs, reduceIte, Option.some.injEq] at h <;>
        subst h
      · exact preserves_refl cd
      · exact ⟨fun _ => rfl, fun _ => rfl, rfl⟩
  | switchLevelL id n =>
      simp only [applyLine, Option.some.injEq] at h
      subst h
      exact updSwitch_preserves cd id _ (fun s => rfl) (fun s => rfl)
  | switchPinL id n =>
      simp only [applyLine, Bool.false_eq_true, reduceIte, Option.some.injEq] at h
      subst h; exact preserves_refl cd
  | switchBounceL id n =>
      simp only [applyLine, Option.some.injEq] at h
      subst h
      exact updSwitch_preserves cd id _ (fun s => rfl) (fun s => rfl)
  | switchOnL id s =>
      by_cases hs : s = "" <;>
        simp only [applyLine, hs, reduceIte, Option.some.injEq] at h <;>
        subst h
      · exact preserves_refl cd
      · exact updSwitch_preserves cd id _ (fun s => rfl) (fun s => rfl)
  | switchOffL id s =>
      by_cases hs : s = "" <;>
        simp only [applyLine, hs, reduceIte, Option.some.injEq] at h <;>
        subst h
      · exact preserves_refl cd
      · exact updSwitch_preserves cd id _ (fun s => rfl) (fun s => rfl)

lemma applyLines_nonInitial : ∀ (ls : List ConfigLine) (cd cd1 : ConfigData),
    applyLines false cd ls = some cd1 → PreservesRuntime cd cd1
  | [], cd, cd1, h => by
      simp only [applyLines, Option.some.injEq] at h
      subst h; exact preserves_refl cd
  | l :: ls, cd, cd1, h => by
      simp only [applyLines] at h
      cases hl : applyLine false cd l with
      | none => rw [hl] at h; exact absurd h (by simp)
      | some cdm =>
          rw [hl] at h
          exact preserves_trans (applyLine_nonInitial cd cdm l hl)
            (applyLines_nonInitial ls cdm cd1 h)

/-- C5: a non-initial configuration reload leaves every switch's runtime
fields (state, `LastOn`, `LastOff`, interval history, baseline) and hardware
binding (pin, initialized) and the sump geometry unchanged; only the
hot-reloadable fields can be overwritten. -/
theorem C5_hot_reload (cd : ConfigData) (hash : String) (fp : Option String)
    (content : Option (List ConfigLine)) (cd' : ConfigData) (h' : String)
    (hres : RefreshConfig false cd hash fp content = some (cd', h')) :
    PreservesRuntime cd cd' := by
  simp only [RefreshConfig, reduceIte] at hres
  cases fp with
  | none =>
      have h1 : cd = cd' := congrArg Prod.fst (Option.some.inj hres)
      rw [← h1]; exact preserves_refl cd
  | some f =>
      dsimp only at hres
      by_cases hh : hash = f
      · rw [if_pos hh] at hres
        have h1 : cd = cd' := congrArg Prod.fst (Option.some.inj hres)
        rw [← h1]; exact preserves_refl cd
      · rw [if_neg hh] at hres
        cases content with
        | none =>
            have h1 : cd = cd' := congrArg Prod.fst (Option.some.inj hres)
            rw [← h1]; exact preserves_refl cd
        | some lines =>
            dsimp only at hres
            cases hal : applyLines false cd lines with
            | none => rw [hal] at hres; simp at hres
            | some cdm =>
                rw [hal] at hres
                have h1 : setCapacity cdm = cd' :=
                  congrArg Prod.fst (Option.some.inj hres)
                rw [← h1]
                exact preserves_trans (applyLines_nonInitial lines cd cdm hal)
                  ⟨fun _ => rfl, fun _ => rfl, rfl⟩

/-- C5 witness: the theorem applied to a reload of `cdTrace` that changes
only switch 0's bounce window and the overdue threshold. -/
theorem C5_hot_reload_witness : PreservesRuntime cdTrace (setCapacity cdReload) :=
  C5_hot_reload cdTrace "a" (some "b")
    (some [ConfigLine.switchBounceL 0 9, ConfigLine.overdueThresholdL 7])
    (setCapacity cdReload) "b" (by rfl)

/-! ### C6 -/

/-- C6 counterexample: after an unreadable config file during a non-initial
reload (the fingerprint "b" differs from the stored hash "a"), the snapshot
is kept — but the fingerprint was already recorded, so the next scheduled
check with the same fingerprint "b" and the file readable again performs no
reparse: the directive that would set the overdue threshold to 99 is lost. -/
theorem C6_counterexample :
    RefreshConfig false cdTrace "a" (some "b") none = some (cdTrace, "b") ∧
    RefreshConfig false cdTrace "b" (some "b")
      (some [ConfigLine.overdueThresholdL 99]) = some (cdTrace, "b") ∧
    (applyLines false cdTrace [ConfigLine.overdueThresholdL 99]).map
      (fun c => c.overduethreshold) = some 99 ∧
    cdTrace.overduethreshold = 0 :=
  ⟨rfl, rfl, rfl, rfl⟩

/-- C6 (amended): a missing or unreadable config source during a non-initial
reload is non-fatal (no `exit`) and keeps the last-known-good snapshot
unchanged; but the new fingerprint is recorded before the reparse attempt,
so a later check with the same fingerprint returns without reparsing no
matter what the file now contains.  An unreadable checksum read-back leaves
everything unchanged. -/
theorem C6_nonfatal (cd : ConfigData) (hash f : String)
    (content2 : Option (List ConfigLine)) (hne : hash ≠ f) :
    RefreshConfig false cd hash (some f) none = some (cd, f) ∧
    RefreshConfig false cd f (some f) content2 = some (cd, f) ∧
    RefreshConfig false cd hash none none = some (cd, hash) := by
  refine ⟨?_, ?_, rfl⟩
  · simp [RefreshConfig, hne]
  · simp [RefreshConfig]

/-- C6 witness: the amended theorem applied to `cdTrace` with hashes "a" and
"b" and a directive list that would be readable at the second check. -/
theorem C6_nonfatal_witness :
    RefreshConfig false cdTrace "a" (some "b") none = some (cdTrace, "b") ∧
    RefreshConfig false cdTrace "b" (some "b") (some [ConfigLine.logDirective]) =
      some (cdTrace, "b") ∧
    RefreshConfig false cdTrace "a" none none = some (cdTrace, "a") :=
  C6_nonfatal cdTrace "a" "b" (some [ConfigLine.logDirective]) (by decide)

/-! ### Scan-fold invariants for the overdue-notice flag -/

lemma processSwitch_eq (t : Int) (raw : Nat → Bool) (acc : ScanAcc) (ID : Nat) :
    processSwitch t raw acc ID =
      ⟨(switchBody t raw acc.cd acc.overduenotice ID).cd,
       (switchBody t raw acc.cd acc.overduenotice ID).overduenotice,
       acc.calls ++ (switchBody t raw acc.cd acc.overduenotice ID).calls,
       acc.trans ++ (switchBody t raw acc.cd acc.overduenotice ID).trans,
       acc.divisors ++ (switchBody t raw acc.cd acc.overduenotice ID).divisors,
       acc.envs ++ (switchBody t raw acc.cd acc.overduenotice ID).envs⟩ := by
  rcases acc with ⟨cd, n, cs, trs, ds, es⟩
  rcases hb : switchBody t raw cd n ID with ⟨cd1, n1, c, tr, d, e⟩
  simp [processSwitch, hb]

lemma body_calls_not_overdue (t : Int) (raw : Nat → Bool) (cd : ConfigData)
    (notified : Bool) (ID : Nat) :
    ∀ c ∈ (switchBody t raw cd notified ID).calls, c.site ≠ ActionSite.overdueSite := by
  rcases switchBody_shape t raw cd notified ID with h | h | h <;> rw [h]
  · simp [noChange]
  · intro c hc
    rcases List.mem_cons.mp hc with hc1 | hc1
    · rw [hc1]; simp
    · rw [rateDetect_calls _ _ c hc1]; simp
  · simp

lemma body_notified_true (t : Int) (raw : Nat → Bool) (cd : ConfigData)
    (notified : Bool) (ID : Nat)
    (h : (switchBody t raw cd notified ID).overduenotice = true) : notified = true := by
  rcases switchBody_shape t raw cd notified ID with hs | hs | hs <;> rw [hs] at h
  · exact h
  · exact h
  · dsimp only at h
    by_cases hid : ID = 0
    · rw [if_pos hid] at h; exact absurd h (by simp)
    · rw [if_neg hid] at h; exact h

lemma body_notified_false (t : Int) (raw : Nat → Bool) (cd : ConfigData)
    (notified : Bool) (ID : Nat)
    (h : (switchBody t raw cd notified ID).overduenotice = false) :
    notified = false ∨ (0, Transition.ToOff) ∈ (switchBody t raw cd notified ID).trans := by
  rcases switchBody_shape t raw cd notified ID with hs | hs | hs <;> rw [hs] at h ⊢
  · exact Or.inl h
  · exact Or.inl h
  · dsimp only at h ⊢
    by_cases hid : ID = 0
    · subst hid; exact Or.inr (by simp)
    · rw [if_neg hid] at h; exact Or.inl h

lemma body_toOff_notified (t : Int) (raw : Nat → Bool) (cd : ConfigData)
    (notified : Bool) (ID : Nat)
    (h : (0, Transition.ToOff) ∈ (switchBody t raw cd notified ID).trans) :
    (switchBody t raw cd notified ID).overduenotice = false := by
  rcases switchBody_shape t raw cd notified ID with hs | hs | hs <;> rw [hs] at h ⊢
  · exact absurd h (by simp [noChange])
  · exact absurd h (by simp)
  · dsimp only at h ⊢
    have hid : ID = 0 := by
      simp only [List.mem_singleton, Prod.mk.injEq] at h
      exact h.1.symm
    rw [if_pos hid]

lemma fold_calls_not_overdue (t : Int) (raw : Nat → Bool) :
    ∀ (l : List Nat) (acc : ScanAcc),
    (∀ c ∈ acc.calls, c.site ≠ ActionSite.overdueSite) →
    ∀ c ∈ (l.foldl (fun a ID => processSwitch t raw a ID) acc).calls,
      c.site ≠ ActionSite.overdueSite
  | [], acc, h => h
  | ID :: l, acc, h => by
      rw [List.foldl_cons]
      apply fold_calls_not_overdue t raw l
      rw [processSwitch_eq]
      intro c hc
      rcases List.mem_append.mp hc with h2 | h2
      · exact h c h2
      · exact body_calls_not_overdue t raw acc.cd acc.overduenotice ID c h2

lemma fold_notified_inv (t : Int) (raw : Nat → Bool) :
    ∀ (l : List Nat) (acc : ScanAcc),
    (acc.overduenotice = true ∨ (0, Transition.ToOff) ∈ acc.trans) →
    ((l.foldl (fun a ID => processSwitch t raw a ID) acc).overduenotice = true ∨
      (0, Transition.ToOff) ∈ (l.foldl (fun a ID => processSwitch t raw a ID) acc).trans)
  | [], acc, h => h
  | ID :: l, acc, h => by
      rw [List.foldl_cons]
      apply fold_notified_inv t raw l
      rw [processSwitch_eq]
      rcases h with h | h
      · cases hb : (switchBody t raw acc.cd acc.overduenotice ID).overduenotice
        · rcases body_notified_false t raw acc.cd acc.overduenotice ID hb with h2 | h2
          · rw [h2] at h; exact absurd h (by simp)
          · exact Or.inr (List.mem_append_right _ h2)
        · exact Or.inl rfl
      · exact Or.inr (List.mem_append_left _ h)

lemma scan_notified_persist (t : Int) (raw : Nat → Bool) (cd0 : ConfigData) (n0 : Bool)
    (hn : n0 = true)
    (h2 : (scanSwitches t raw ⟨cd0, n0, [], [], [], []⟩).trans.any
        (fun p => decide (p.1 = 0 ∧ p.2 = Transition.ToOff)) = false) :
    (scanSwitches t raw ⟨cd0, n0, [], [], [], []⟩).overduenotice = true := by
  rcases fold_notified_inv t raw (List.range 100) ⟨cd0, n0, [], [], [], []⟩
      (Or.inl hn) with h3 | h3
  · exact h3
  · rw [List.any_eq_false] at h2
    have := h2 _ h3
    simp at this

lemma fold_toOff_reset (t : Int) (raw : Nat → Bool) :
    ∀ (l : List Nat) (acc : ScanAcc),
    ((0, Transition.ToOff) ∈ acc.trans → acc.overduenotice = false) →
    (0, Transition.ToOff) ∈ (l.foldl (fun a ID => processSwitch t raw a ID) acc).trans →
      (l.foldl (fun a ID => processSwitch t raw a ID) acc).overduenotice = false
  | [], acc, h => h
  | ID :: l, acc, h => by
      rw [List.foldl_cons]
      apply fold_toOff_reset t raw l
      rw [processSwitch_eq]
      intro hmem
      dsimp only at hmem ⊢
      rcases List.mem_append.mp hmem with h2 | h2
      · have hacc := h h2
        cases hb : (switchBody t raw acc.cd acc.overduenotice ID).overduenotice
        · rfl
        · have := body_notified_true t raw acc.cd acc.overduenotice ID hb
          rw [hacc] at this
          exact absurd this (by simp)
      · exact body_toOff_notified t raw acc.cd acc.overduenotice ID h2

/-! ### Overdue stage and tick lemmas -/

lemma overdueStage_any (t : Int) (cd : ConfigData) (notified : Bool) :
    ((overdueStage t cd notified).2.any
      (fun c => decide (c.site = ActionSite.overdueSite))) =
      overdueCondB cd notified t := by
  simp only [overdueStage, overdueCondB]
  by_cases h1 : ((cd.switchlist.getD 0 default).state = true ∧ notified = false)
  · rw [if_pos h1]
    by_cases h2 : (t - (cd.switchlist.getD 0 default).LastOff ≥
        GetFrequency (cd.switchlist.getD 0 default) + cd.overduethreshold ∧
        GetFrequency (cd.switchlist.getD 0 default) ≠ 0)
    · rw [if_pos h2, h1.1, h1.2, decide_eq_true h2.1, decide_eq_true h2.2]
      simp
    · rw [if_neg h2]
      rcases not_and_or.mp h2 with h3 | h3
      · rw [decide_eq_false h3]
        simp
      · rw [decide_eq_false h3]
        simp
  · rw [if_neg h1]
    rcases not_and_or.mp h1 with h3 | h3
    · have hst : (cd.switchlist.getD 0 default).state = false := by
        cases hs : (cd.switchlist.getD 0 default).state
        · rfl
        · exact absurd hs h3
      rw [hst]
      simp
    · have hnt : notified = true := by
        cases hn : notified
        · exact absurd hn h3
        · rfl
      rw [hnt]
      simp

lemma overdueStage_fst_true (t : Int) (cd : ConfigData) (notified : Bool)
    (h : notified = true) : (overdueStage t cd notified).1 = true := by
  simp only [overdueStage]
  repeat' split <;> simp [h]

lemma overdueStage_fst_of_cond (t : Int) (cd : ConfigData) (notified : Bool)
    (h : overdueCondB cd notified t = true) :
    (overdueStage t cd notified).1 = true := by
  simp only [overdueCondB, Bool.and_eq_true, Bool.not_eq_true', decide_eq_true_eq] at h
  obtain ⟨⟨hst, hn⟩, hge, hne⟩ := h
  simp only [overdueStage]
  rw [if_pos ⟨hst, hn⟩, if_pos ⟨hge, hne⟩]

lemma scan_calls_not_overdue_any (t : Int) (raw : Nat → Bool) (acc : ScanAcc)
    (hacc : acc.calls = []) :
    (scanSwitches t raw acc).calls.any
      (fun c => decide (c.site = ActionSite.overdueSite)) = false := by
  rw [List.any_eq_false]
  intro c hc
  have := fold_calls_not_overdue t raw (List.range 100) acc
    (by rw [hacc]; simp) c hc
  simpa using this

/-- During a tick, the overdue `Action` call site is reached exactly when the
overdue condition held at the start of the tick. -/
lemma overdueFired_eq (st : LoopState) (inp : TickInput) :
    overdueFiredB (tick st inp) = overdueCondB st.cd st.overduenotice inp.t := by
  simp only [tick, overdueFiredB]
  rw [List.any_append, scan_calls_not_overdue_any _ _ _ rfl, overdueStage_any]
  simp

lemma scan_toOff_resets (t : Int) (raw : Nat → Bool) (cd0 : ConfigData) (n0 : Bool)
    (hmem : (0, Transition.ToOff) ∈
      (scanSwitches t raw ⟨cd0, n0, [], [], [], []⟩).trans) :
    (scanSwitches t raw ⟨cd0, n0, [], [], [], []⟩).overduenotice = false :=
  fold_toOff_reset t raw (List.range 100) ⟨cd0, n0, [], [], [], []⟩ (by simp) hmem

lemma tick_notified_persist (st : LoopState) (inp : TickInput)
    (h : st.overduenotice = true) (h2 : toOff0B (tick st inp) = false) :
    (tick st inp).state.overduenotice = true := by
  simp only [tick, toOff0B] at h2 ⊢
  exact scan_notified_persist _ _ _ _
    (overdueStage_fst_true inp.t st.cd st.overduenotice h) h2

lemma tick_fired_notified (st : LoopState) (inp : TickInput)
    (hf : overdueFiredB (tick st inp) = true) (h2 : toOff0B (tick st inp) = false) :
    (tick st inp).state.overduenotice = true := by
  have hcond : overdueCondB st.cd st.overduenotice inp.t = true := by
    rw [← overdueFired_eq]; exact hf
  simp only [tick, toOff0B] at h2 ⊢
  exact scan_notified_persist _ _ _ _
    (overdueStage_fst_of_cond inp.t st.cd st.overduenotice hcond) h2

lemma tick_fired_not_notified (st : LoopState) (inp : TickInput)
    (hf : overdueFiredB (tick st inp) = true) : st.overduenotice = false := by
  rw [overdueFired_eq] at hf
  simp only [overdueCondB] at hf
  cases hn : st.overduenotice
  · rfl
  · rw [hn] at hf; simp at hf

lemma tick_toOff_resets (st : LoopState) (inp : TickInput)
    (h : toOff0B (tick st inp) = true) :
    (tick st inp).state.overduenotice = false := by
  simp only [tick, toOff0B] at h ⊢
  rw [List.any_eq_true] at h
  obtain ⟨p, hp, hdec⟩ := h
  rw [decide_eq_true_eq] at hdec
  have hpe : p = (0, Transition.ToOff) := Prod.ext hdec.1 hdec.2
  exact scan_toOff_resets _ _ _ _ (hpe ▸ hp)

/-! ### Trace lemmas -/

lemma stateAt_succ (st : LoopState) (inputs : List TickInput) (k : Nat) :
    stateAt st inputs (k + 1) =
      (match inputs[k]? with
        | some inp => tickState (stateAt st inputs k) inp
        | none => stateAt st inputs k) := by
  simp only [stateAt, List.take_succ, List.foldl_append]
  cases inputs[k]? <;> simp

lemma notified_stays (st : LoopState) (inputs : List TickInput) (a b : Nat)
    (hab : a ≤ b)
    (ha : (stateAt st inputs a).overduenotice = true)
    (hno : ∀ k, a ≤ k → k < b → toOff0AtB st inputs k = false) :
    (stateAt st inputs b).overduenotice = true := by
  induction b, hab using Nat.le_induction with
  | base => exact ha
  | succ b hab ih =>
      have hb : (stateAt st inputs b).overduenotice = true :=
        ih (fun k hk1 hk2 => hno k hk1 (Nat.lt_succ_of_lt hk2))
      rw [stateAt_succ]
      cases hin : inputs[b]? with
      | none => exact hb
      | some inp =>
          have hoff : toOff0AtB st inputs b = false := hno b hab (Nat.lt_succ_self b)
          rw [toOff0AtB, hin] at hoff
          exact tick_notified_persist (stateAt st inputs b) inp hb hoff

/-! ### C1 -/

/-- C1: the overdue behaviour of the polling loop.  (1) During any tick, the
overdue action call fires exactly when — at the start of the tick — switch 0
is On, no notice has fired for the episode, the frequency estimate is
nonzero, and `now - lastOffAt >= frequency + overdueThresholdSeconds`.
(2) A tick that performs a validated ToOff of switch 0 ends with the
notified flag reset, permitting one new notice in a later episode.  (3) Two
overdue firings are always separated by a validated ToOff of switch 0: the
notice fires at most once per continuous On-episode. -/
theorem C1_overdue_once (st : LoopState) (inputs : List TickInput) (i j : Nat)
    (hij : i < j)
    (hi : firesAtB st inputs i = true) (hj : firesAtB st inputs j = true) :
    (∀ k inp, inputs[k]? = some inp →
      (firesAtB st inputs k = true ↔
        overdueCondB (stateAt st inputs k).cd (stateAt st inputs k).overduenotice
          inp.t = true)) ∧
    (∀ (st' : LoopState) (inp' : TickInput), toOff0B (tick st' inp') = true →
      (tick st' inp').state.overduenotice = false) ∧
    (∃ k, i ≤ k ∧ k ≤ j ∧ toOff0AtB st inputs k = true) := by
  refine ⟨?_, fun st' inp' h => tick_toOff_resets st' inp' h, ?_⟩
  · intro k inp hk
    simp only [firesAtB, hk]
    rw [overdueFired_eq]
  · by_contra hno
    push_neg at hno
    have hno' : ∀ k, i ≤ k → k ≤ j → toOff0AtB st inputs k = false := by
      intro k h1 h2
      have h3 := hno k h1 h2
      cases hb : toOff0AtB st inputs k
      · rfl
      · exact absurd hb h3
    obtain ⟨inpi, hini⟩ : ∃ inp, inputs[i]? = some inp := by
      cases hin : inputs[i]? with
      | none => rw [firesAtB, hin] at hi; exact absurd hi (by simp)
      | some inp => exact ⟨inp, rfl⟩
    have hfi : overdueFiredB (tick (stateAt st inputs i) inpi) = true := by
      rw [firesAtB, hini] at hi; exact hi
    have hoffi : toOff0B (tick (stateAt st inputs i) inpi) = false := by
      have := hno' i (Nat.le_refl i) (Nat.le_of_lt hij)
      rw [toOff0AtB, hini] at this; exact this
    have hsucc : (stateAt st inputs (i + 1)).overduenotice = true := by
      rw [stateAt_succ, hini]
      exact tick_fired_notified (stateAt st inputs i) inpi hfi hoffi
    have hstayj : (stateAt st inputs j).overduenotice = true := by
      refine notified_stays st inputs (i + 1) j hij hsucc ?_
      intro k hk1 hk2
      exact hno' k (Nat.le_of_succ_le hk1) (Nat.le_of_lt hk2)
    obtain ⟨inpj, hinj⟩ : ∃ inp, inputs[j]? = some inp := by
      cases hin : inputs[j]? with
      | none => rw [firesAtB, hin] at hj; exact absurd hj (by simp)
      | some inp => exact ⟨inp, rfl⟩
    have hfj : overdueFiredB (tick (stateAt st inputs j) inpj) = true := by
      rw [firesAtB, hinj] at hj; exact hj
    have := tick_fired_not_notified (stateAt st inputs j) inpj hfj
    rw [hstayj] at this
    exact absurd this (by simp)

/-- C1 witness: the theorem applied to the four-tick trace `inTrace` from
`stTrace`, with firings at ticks 0 and 3 and the ToOff at tick 1. -/
theorem C1_overdue_once_witness :
    firesAtB stTrace inTrace 0 = true ∧ firesAtB stTrace inTrace 3 = true ∧
    ((∀ k inp, inTrace[k]? = some inp →
      (firesAtB stTrace inTrace k = true ↔
        overdueCondB (stateAt stTrace inTrace k).cd
          (stateAt stTrace inTrace k).overduenotice inp.t = true)) ∧
    (∀ (st' : LoopState) (inp' : TickInput), toOff0B (tick st' inp') = true →
      (tick st' inp').state.overduenotice = false) ∧
    (∃ k, 0 ≤ k ∧ k ≤ 3 ∧ toOff0AtB stTrace inTrace k = true)) :=
  ⟨by decide, by decide,
   C1_overdue_once stTrace inTrace 0 3 (by decide) (by decide) (by decide)⟩

/-! ### C10 -/

/-- C10 counterexample: a live run in which the overdue action is configured
mid-episode by hot reload *before* the condition has been met, and the very
same On-episode later produces a real overdue notice ("OD" is dispatched) —
refuting "can never produce an overdue notice for the episode already in
progress". -/
theorem C10_counterexample :
    st10.cd.overdue = none ∧
    (tickState st10 inp10a).cd.overdue = some "OD" ∧
    (st10.cd.switchlist.getD 0 default).state = true ∧
    ((tickState st10 inp10a).cd.switchlist.getD 0 default).state = true ∧
    toOff0B (tick st10 inp10a) = false ∧
    toOff0B (tick (tickState st10 inp10a) inp10b) = false ∧
    overdueFiredB (tick st10 inp10a) = false ∧
    overdueFiredB (tick (tickState st10 inp10a) inp10b) = true ∧
    "OD" ∈ dispatched (tick (tickState st10 inp10a) inp10b).calls := by
  refine ⟨by decide, by decide, by decide, by decide, by decide, by decide,
    by decide, by decide, by decide⟩

/-- C10 (amended): when the overdue condition is met with no notice yet, the
episode is marked already-notified even when no overdue template is
configured — the `Action` call dispatches nothing but the flag is still set;
consequently, once the flag is set, no tick fires the overdue call again
(regardless of any template installed by hot reload) until a validated ToOff
of switch 0 resets the flag.  A notice can still fire for the in-progress
episode if the condition is first met after the reload. -/
theorem C10_flag_set_regardless (t : Int) (cd : ConfigData) (st : LoopState)
    (inp : TickInput) (hcond : overdueCondB cd false t = true) :
    ((overdueStage t cd false).1 = true ∧
      (cd.overdue = none → dispatched (overdueStage t cd false).2 = [])) ∧
    (st.overduenotice = true → overdueFiredB (tick st inp) = false) := by
  refine ⟨⟨overdueStage_fst_of_cond t cd false hcond, ?_⟩, ?_⟩
  · intro hod
    simp only [overdueStage]
    repeat' split <;> simp [dispatched, hod]
  · intro hn
    rw [overdueFired_eq]
    simp [overdueCondB, hn]

/-- C10 witness: the amended theorem applied at `cdTrace` (switch 0 On,
condition met at t=20 with no overdue template) and a notified state. -/
theorem C10_flag_set_regardless_witness :
    overdueCondB cdTrace false 20 = true ∧
    (((overdueStage 20 cdTrace false).1 = true ∧
      (cdTrace.overdue = none → dispatched (overdueStage 20 cdTrace false).2 = [])) ∧
    (({ stTrace with overduenotice := true } : LoopState).overduenotice = true →
      overdueFiredB (tick { stTrace with overduenotice := true }
        ⟨25, fun _ => true, none, none⟩) = false)) :=
  ⟨by decide, C10_flag_set_regardless 20 cdTrace { stTrace with overduenotice := true }
    ⟨25, fun _ => true, none, none⟩ (by decide)⟩

end SumpAlarm
